import Mathlib

/-!
Verification development for the Gif-Subs repository (src/app.py and
src/download_subs.py): a shallow embedding of the transcript-acquisition
pipeline, the corpus indexer, the semantic-search presentation logic and
the clip-synthesis/caching pipeline, together with theorems settling the
behavioural claims about them.

The filesystem is modelled as a finite association list of (path, content)
pairs.  The external capabilities (yt-dlp download, ffmpeg encoding,
whisper transcription) are oracles: functions from filesystem states to
filesystem states, with an explicit success/exception outcome.  Call
counters record how often each external capability is invoked, so that
"performs no download/encoding work" is a statement about the model.
-/

/-- ASCII fragment of Python `str.isspace` / the character class stripped by
`str.strip()` with no argument: space, tab, newline, carriage return,
vertical tab, form feed. -/
def pyIsSpace (c : Char) : Bool :=
  c == ' ' || c == '\t' || c == '\n' || c == '\x0d' || c == '\x0b' || c == '\x0c'

/-- ASCII fragment of Python `str.isalnum` (letters and digits).  The claims
only exercise ASCII captions, so the ASCII fragment is faithful on every
input that appears in a theorem below. -/
def pyIsAlnum (c : Char) : Bool :=
  c.isAlphanum

/-- Python `s.strip()` on a character list: drop whitespace from both ends. -/
def pyStripData (l : List Char) : List Char :=
  ((l.dropWhile pyIsSpace).reverse.dropWhile pyIsSpace).reverse

/-- Python `s.strip()`. -/
def pyStrip (s : String) : String :=
  ⟨pyStripData s.data⟩

/-- Python `s.replace(old, "")` for a single character `old`. -/
def pyRemoveChar (s : String) (c : Char) : String :=
  ⟨s.data.filter (fun x => x != c)⟩

/-- Python `s[:n]`. -/
def pyTake (n : Nat) (s : String) : String :=
  ⟨s.data.take n⟩

/-- Prefix test on strings, via the executable list prefix test. -/
def strHasPre (s pre : String) : Bool :=
  pre.data.isPrefixOf s.data

/-- `glob` match for a pattern `pre*suf` (the only shapes the source uses:
`subs/<id>*.vtt` and `gifs/temp_<id>*`). -/
def globMatch (name pre suf : String) : Bool :=
  pre.data.isPrefixOf name.data && suf.data.isSuffixOf (name.data.drop pre.data.length)

/-- The filesystem: a finite map from paths to file contents, as an
association list (most recent write first). -/
structure FS where
  files : List (String × String)
deriving DecidableEq

/-- `os.path.exists`. -/
def FS.exists (fs : FS) (p : String) : Bool :=
  fs.files.any (fun f => f.1 == p)

/-- Write (create or overwrite) a file. -/
def FS.write (fs : FS) (p c : String) : FS :=
  ⟨(p, c) :: fs.files.filter (fun f => f.1 != p)⟩

/-- `os.remove` (no-op on a missing path, matching the guarded removes in
the source). -/
def FS.remove (fs : FS) (p : String) : FS :=
  ⟨fs.files.filter (fun f => f.1 != p)⟩

/-- Remove every file whose path starts with `pre`: the effect of
`for f in glob("pre*"): os.remove(f)`. -/
def FS.purge (fs : FS) (pre : String) : FS :=
  ⟨fs.files.filter (fun f => !(strHasPre f.1 pre))⟩

/-- Outcome of invoking an external tool: it returns normally or raises an
exception; either way it may have changed the filesystem. -/
inductive ExtOut where
  | ok (fs : FS)
  | err (fs : FS)
deriving DecidableEq

/-- Python `int(q)` on a nonnegative-or-negative rational: truncation toward
zero, which is exactly `Int.tdiv` of numerator by denominator. -/
def pyInt (q : ℚ) : ℤ :=
  q.num.tdiv q.den

-- ### Clip synthesis pipeline (src/app.py, create_gif_snippet)

/-- The external capabilities used by `create_gif_snippet`: `dl` is the
yt-dlp section download (closing over video id and time range), `enc` is
the ffmpeg subprocess, receiving the temp input path, the filter string
and the output path. -/
structure ClipOracles where
  dl : FS → ExtOut
  enc : FS → String → String → String → ExtOut

/-- Result of one `create_gif_snippet` call: final filesystem, return value
(`some path` or `None`), and how often each external capability ran. -/
structure ClipResult where
  fs : FS
  ret : Option String
  dlCalls : Nat
  encCalls : Nat
deriving DecidableEq

/-- `gifs/temp_<video_id>.mp4` (src/app.py line 56). -/
def tempPath (video_id : String) : String :=
  "gifs/temp_" ++ video_id ++ ".mp4"

/-- The purge pattern `gifs/temp_<video_id>*` (src/app.py line 52). -/
def purgePat (video_id : String) : String :=
  "gifs/temp_" ++ video_id

/-- `safe_text` (src/app.py line 59): keep alphanumerics and spaces, strip,
truncate to 20 characters. -/
def pySafeText (text_caption : String) : String :=
  pyTake 20 (pyStrip ⟨text_caption.data.filter (fun c => pyIsAlnum c || c == ' ')⟩)

/-- `safe_text.replace(' ', '_')` as used in the artifact name. -/
def underscored (s : String) : String :=
  ⟨s.data.map (fun c => if c == ' ' then '_' else c)⟩

/-- `output_gif` (src/app.py line 60): the artifact path keyed by video id,
truncated start second and sanitized caption. -/
def output_gif_path (video_id : String) (n : ℤ) (text_caption : String) : String :=
  "gifs/" ++ video_id ++ "_" ++ Int.repr n ++ "_" ++ underscored (pySafeText text_caption) ++ ".gif"

/-- `safe_caption` (src/app.py line 87): the caption with single quotes and
colons removed before being interpolated into the filter string. -/
def safe_caption (text_caption : String) : String :=
  pyRemoveChar (pyRemoveChar text_caption '\'') ':'

/-- The fixed filter text before the interpolated caption
(src/app.py lines 90-94). -/
def filterPre : String :=
  "fps=12,scale=480:-1,drawtext=fontfile='C\\:/Windows/Fonts/arial.ttf':text='"

/-- The fixed filter text after the interpolated caption
(src/app.py lines 94-98). -/
def filterPost : String :=
  "':fontcolor=white:fontsize=24:box=1:boxcolor=black@0.5:boxborderw=5:x=(w-text_w)/2:y=h-text_h-10,split[s0][s1];[s0]palettegen[p];[s1][p]paletteuse"

/-- `filters` (src/app.py lines 92-99): the ffmpeg filter specification with
the sanitized caption interpolated. -/
def filters (text_caption : String) : String :=
  "fps=12,scale=480:-1," ++
  "drawtext=fontfile='" ++ "C\\:/Windows/Fonts/arial.ttf" ++ "':text='" ++ safe_caption text_caption ++ "':" ++
  "fontcolor=white:fontsize=24:" ++
  "box=1:boxcolor=black@0.5:boxborderw=5:" ++
  "x=(w-text_w)/2:y=h-text_h-10," ++
  "split[s0][s1];[s0]palettegen[p];[s1][p]paletteuse"

/-- `create_gif_snippet` (src/app.py lines 47-111).  Steps, in source order:
purge stale `gifs/temp_<id>*` files; compute the artifact path; return it at
once if cached; otherwise download the section (exception caught, `None`),
give up if no temp video materialized, run ffmpeg (exception caught,
`None`), and on success delete the temp video and return the path. -/
def create_gif_snippet (o : ClipOracles) (fs : FS) (video_id : String)
    (start_seconds : ℚ) (text_caption : String) : ClipResult :=
  let fs1 := fs.purge (purgePat video_id)
  let temp_video := tempPath video_id
  let out := output_gif_path video_id (pyInt start_seconds) text_caption
  if fs1.exists out then ⟨fs1, some out, 0, 0⟩
  else
    match o.dl fs1 with
    | .err fs2 => ⟨fs2, none, 1, 0⟩
    | .ok fs2 =>
      if fs2.exists temp_video then
        match o.enc fs2 temp_video (filters text_caption) out with
        | .err fs3 => ⟨fs3, none, 1, 1⟩
        | .ok fs3 => ⟨fs3.remove temp_video, some out, 1, 1⟩
      else ⟨fs2, none, 1, 0⟩

-- ### Transcript acquisition pipeline (src/download_subs.py)

/-- One segment yielded by the transcription capability: start and end
offsets in seconds and the spoken text. -/
structure Segment where
  start : ℚ
  endT : ℚ
  text : String
deriving DecidableEq

/-- External capabilities used by acquisition: `subDl` is the yt-dlp
subtitle download (non-raising, `ignoreerrors` is set), `audioDl` the
yt-dlp audio download (its exceptions are caught by the caller), and
`transcribe` the whisper model consuming the downloaded audio. -/
structure SubsOracles where
  subDl : FS → FS
  audioDl : FS → ExtOut
  transcribe : FS → List Segment

/-- Result of one acquisition call: final filesystem plus call counters for
the subtitle download, the whisper fallback as a whole, the audio download
and the transcription model. -/
structure SubsResult where
  fs : FS
  subDlCalls : Nat
  whisperCalls : Nat
  audioDlCalls : Nat
  transcribeCalls : Nat
deriving DecidableEq

/-- The glob `subs/<video_id>*.vtt` used for both the idempotence check and
the post-download check (src/download_subs.py lines 66 and 93). -/
def subsGlob (fs : FS) (video_id : String) : Bool :=
  fs.files.any (fun f => globMatch f.1 ("subs/" ++ video_id) ".vtt")

/-- `temp_<video_id>.mp3` (src/download_subs.py line 103). -/
def audioPath (video_id : String) : String :=
  "temp_" ++ video_id ++ ".mp3"

/-- `subs/<video_id>.el.vtt` (src/download_subs.py line 133). -/
def vttPath (video_id : String) : String :=
  "subs/" ++ video_id ++ ".el.vtt"

/-- Zero-pad a nonnegative integer to two digits: Python `f"{n:02d}"`
for the values that occur (hours/minutes are nonnegative). -/
def pad2 (n : ℤ) : String :=
  if 0 ≤ n ∧ n < 10 then "0" ++ Int.repr n else Int.repr n

/-- Zero-pad a natural number below 1000 to three digits. -/
def pad3 (n : ℕ) : String :=
  if n < 10 then "00" ++ Nat.repr n else if n < 100 then "0" ++ Nat.repr n else Nat.repr n

/-- `format_timestamp` (src/download_subs.py lines 146-149): divmod by 60
twice and render `HH:MM:SS.mmm`.  Python's `%06.3f` rounds the fractional
seconds to three decimals; milliseconds are truncated here — no claim
depends on the final digit of a rendered timestamp. -/
def format_timestamp (seconds : ℚ) : String :=
  let m : ℤ := ⌊seconds / 60⌋
  let s : ℚ := seconds - 60 * m
  let h : ℤ := ⌊(m : ℚ) / 60⌋
  let m2 : ℤ := m - 60 * h
  let ms : ℤ := ⌊s * 1000⌋
  pad2 h ++ ":" ++ pad2 m2 ++ ":" ++ pad2 (ms / 1000) ++ "." ++ pad3 (ms % 1000).toNat

/-- The cue block written for one segment (src/download_subs.py line 141). -/
def segmentBlock (seg : Segment) : String :=
  format_timestamp seg.start ++ " --> " ++ format_timestamp seg.endT ++ "\n" ++
  pyStrip seg.text ++ "\n\n"

/-- The whole generated transcript file (src/download_subs.py lines 134-141). -/
def vttContent (segs : List Segment) : String :=
  "WEBVTT\n\n" ++ String.join (segs.map segmentBlock)

/-- `generate_subs_with_whisper` (src/download_subs.py lines 101-144):
download audio (exception → plain return), give up if no audio file
materialized, transcribe, write the `.el.vtt` transcript, delete the
temporary audio. -/
def generate_subs_with_whisper (o : SubsOracles) (fs : FS) (video_id : String) : SubsResult :=
  let audio_file := audioPath video_id
  match o.audioDl fs with
  | .err fs2 => ⟨fs2, 0, 1, 1, 0⟩
  | .ok fs2 =>
    if fs2.exists audio_file then
      let segs := o.transcribe fs2
      let fs3 := fs2.write (vttPath video_id) (vttContent segs)
      ⟨fs3.remove audio_file, 0, 1, 1, 1⟩
    else ⟨fs2, 0, 1, 1, 0⟩

/-- `download_or_generate_subs` (src/download_subs.py lines 63-99): skip if
any `subs/<id>*.vtt` exists; otherwise try the platform subtitles; re-check
the glob; fall back to whisper only if still no file. -/
def download_or_generate_subs (o : SubsOracles) (fs : FS) (video_id : String) : SubsResult :=
  if subsGlob fs video_id then ⟨fs, 0, 0, 0, 0⟩
  else
    let fs1 := o.subDl fs
    if subsGlob fs1 video_id then ⟨fs1, 1, 0, 0, 0⟩
    else
      let r := generate_subs_with_whisper o fs1 video_id
      ⟨r.fs, 1, r.whisperCalls, r.audioDlCalls, r.transcribeCalls⟩

-- ### Corpus indexer (src/app.py, load_index)

/-- One parsed caption of a transcript file, as handed over by the vtt
parser: raw start timestamp and raw text. -/
structure Caption where
  start : String
  text : String
deriving DecidableEq

/-- One indexed cue: cleaned text plus metadata (src/app.py line 39). -/
structure Cue where
  text : String
  start : String
  video_id : String
deriving DecidableEq

/-- `clean_text` (src/app.py line 36): strip, then replace every newline by
one space. -/
def cleanText (s : String) : String :=
  ⟨(pyStripData s.data).map (fun c => if c == '\n' then ' ' else c)⟩

/-- The cue loop of `load_index` for one transcript (src/app.py lines
35-39): keep each caption whose cleaned text has length at least 3. -/
def load_index_cues (video_id : String) (caps : List Caption) : List Cue :=
  caps.filterMap (fun c =>
    let t := cleanText c.text
    if t.length < 3 then none else some ⟨t, c.start, video_id⟩)

-- ### Semantic search presentation (src/app.py lines 122-134)

/-- Insert a scored hit into a list kept in descending score order. -/
def insertDesc (x : Nat × ℚ) : List (Nat × ℚ) → List (Nat × ℚ)
  | [] => [x]
  | y :: ys => if y.2 ≤ x.2 then x :: y :: ys else y :: insertDesc x ys

/-- Sort scored hits by descending score (insertion sort). -/
def sortDesc : List (Nat × ℚ) → List (Nat × ℚ)
  | [] => []
  | x :: xs => insertDesc x (sortDesc xs)

/-- Model of the external `util.semantic_search` capability, at the
contract the spec states for it: pair every corpus index with its
similarity score, order by descending score, keep the best `top_k`.
The similarity scores themselves come from the (external) embedding
capability and are inputs here. -/
def semantic_search (scores : List ℚ) (top_k : Nat) : List (Nat × ℚ) :=
  (sortDesc scores.enum).take top_k

/-- The relevance floor `0.25` (src/app.py line 130), written as an
explicit reduced fraction. -/
def relevanceFloor : ℚ := ⟨1, 4, by decide, by decide⟩

/-- The hits the app presents (src/app.py lines 124-130): `top_k = 10`, and
any hit with `score < 0.25` is skipped. -/
def presentedHits (scores : List ℚ) : List (Nat × ℚ) :=
  (semantic_search scores 10).filter (fun h => !decide (h.2 < relevanceFloor))

/-- The derived seek offset (src/app.py lines 133-134): split the cue start
into hour, minute and second components, truncate the total to an integer
with `int(...)`, subtract 2 and clamp at 0. -/
def seek_seconds (h m s : ℚ) : ℤ :=
  max 0 (pyInt (h * 3600 + m * 60 + s) - 2)

/-- The spec's seek-offset rule, stated on the start offset itself:
`max(0, startOffset − 2s)` with sub-second precision retained. -/
def seekOffsetSpec (startOffset : ℚ) : ℚ :=
  max 0 (startOffset - 2)

/-- The claim's description of the cache-key sanitization: keep only
alphanumerics and spaces, strip surrounding whitespace (only spaces can
remain at this point, so strip spaces), truncate to the first 20
characters. -/
def sanitizeSpec (cap : String) : String :=
  ⟨((((cap.data.filter (fun c => pyIsAlnum c || c == ' ')).dropWhile (· == ' ')).reverse.dropWhile
      (· == ' ')).reverse).take 20⟩

/-- The claim's description of the indexer's text cleanup: trim, then
collapse every maximal run of whitespace to one single space. -/
def collapseWS : List Char → List Char
  | [] => []
  | [c] => if pyIsSpace c then [' '] else [c]
  | c :: d :: cs =>
    if pyIsSpace c && pyIsSpace d then collapseWS (d :: cs)
    else (if pyIsSpace c then ' ' else c) :: collapseWS (d :: cs)

/-- The cue text transformation as the claim words it: whitespace/newlines
collapsed to single spaces (after trimming). -/
def cleanTextSpec (s : String) : String :=
  ⟨collapseWS (pyStripData s.data)⟩

-- ### Concrete capability instances used in witnesses and counterexamples

/-- Well-behaved clip capabilities for the video id `v1`: the section
download materializes the temp video, the encoder materializes its output
file and succeeds. -/
def clipOK : ClipOracles :=
  ⟨fun fs => .ok (fs.write (tempPath "v1") "video"),
   fun fs _t _f out => .ok (fs.write out "gif")⟩

/-- Clip capabilities whose encoder fails after having written a partial
output file — the behaviour of an interrupted `ffmpeg -y` run. -/
def clipEncFail : ClipOracles :=
  ⟨fun fs => .ok (fs.write (tempPath "v1") "video"),
   fun fs _t _f out => .err (fs.write out "partial")⟩

/-- Acquisition capabilities for the video id `v1`: the platform has no
subtitles, the audio download succeeds and materializes the audio file,
and transcription yields one segment. -/
def subsW : SubsOracles :=
  ⟨fun fs => fs,
   fun fs => .ok (fs.write (audioPath "v1") "mp3"),
   fun _ => [⟨0, 2, "hello"⟩]⟩

/-- Acquisition capabilities whose audio download raises without leaving
any file behind. -/
def subsAudioFail : SubsOracles :=
  ⟨fun fs => fs, fun fs => .err fs, fun _ => []⟩

/-- The rational 21/2 = 10.5, as an explicit reduced fraction: a start
offset carrying sub-second precision. -/
def q212 : ℚ := ⟨21, 2, by decide, by decide⟩

-- ### Helper lemmas: filesystem operations

theorem FS.exists_write_self (fs : FS) (p c : String) : (fs.write p c).exists p = true := by
  simp [FS.write, FS.exists]

/-- Filtering with a predicate that keeps every file named `p` does not
change whether a file named `p` exists. -/
theorem any_filter_keep (l : List (String × String)) (keep : String × String → Bool)
    (p : String) (h : ∀ x : String × String, x.1 = p → keep x = true) :
    ((l.filter keep).any (fun f => f.1 == p)) = l.any (fun f => f.1 == p) := by
  induction l with
  | nil => rfl
  | cons f l ih =>
    rw [List.filter_cons]
    by_cases hk : keep f = true
    · rw [if_pos hk, List.any_cons, List.any_cons, ih]
    · have hfp : (f.1 == p) = false := by
        cases hbe : (f.1 == p) with
        | false => rfl
        | true => exact absurd (h f (by simpa using hbe)) hk
      rw [if_neg hk, List.any_cons, hfp, Bool.false_or, ih]

theorem FS.exists_remove_of_ne (fs : FS) (p q : String) (h : p ≠ q) :
    (fs.remove q).exists p = fs.exists p := by
  unfold FS.remove FS.exists
  exact any_filter_keep fs.files _ p (fun x hx => by simp [hx, bne]; exact h)

theorem FS.exists_purge_of_not_pre (fs : FS) (p pre : String) (h : strHasPre p pre = false) :
    (fs.purge pre).exists p = fs.exists p := by
  unfold FS.purge FS.exists
  exact any_filter_keep fs.files _ p (fun x hx => by simp [hx, h])

-- ### Helper lemmas: strings and decimal rendering

/-- Every character pushed by `Nat.toDigitsCore` at base 10 is a decimal
digit (or was already in the accumulator). -/
theorem toDigitsCore_mem (fuel n : ℕ) (ds : List Char) :
    ∀ c ∈ Nat.toDigitsCore 10 fuel n ds, c.isDigit = true ∨ c ∈ ds := by
  induction fuel generalizing n ds with
  | zero => intro c hc; exact Or.inr hc
  | succ fuel ih =>
    intro c hc
    have hd : (Nat.digitChar (n % 10)).isDigit = true := by
      have h10 : n % 10 < 10 := Nat.mod_lt _ (by norm_num)
      set k := n % 10 with hk
      interval_cases k <;> decide
    have hstep : Nat.toDigitsCore 10 (fuel + 1) n ds =
        if n / 10 = 0 then Nat.digitChar (n % 10) :: ds
        else Nat.toDigitsCore 10 fuel (n / 10) (Nat.digitChar (n % 10) :: ds) := rfl
    rw [hstep] at hc
    by_cases hz : n / 10 = 0
    · rw [if_pos hz] at hc
      rcases List.mem_cons.mp hc with hc1 | hc1
      · exact Or.inl (hc1 ▸ hd)
      · exact Or.inr hc1
    · rw [if_neg hz] at hc
      rcases ih (n / 10) (Nat.digitChar (n % 10) :: ds) c hc with h1 | h1
      · exact Or.inl h1
      · rcases List.mem_cons.mp h1 with h2 | h2
        · exact Or.inl (h2 ▸ hd)
        · exact Or.inr h2

/-- `Nat.toDigitsCore` never returns a shorter list than its accumulator:
with positive fuel and an empty accumulator the result is nonempty. -/
theorem toDigitsCore_ne_nil (fuel n : ℕ) (ds : List Char) (h : fuel ≠ 0 ∨ ds ≠ []) :
    Nat.toDigitsCore 10 fuel n ds ≠ [] := by
  induction fuel generalizing n ds with
  | zero =>
    rcases h with h | h
    · exact absurd rfl h
    · exact h
  | succ fuel ih =>
    have hstep : Nat.toDigitsCore 10 (fuel + 1) n ds =
        if n / 10 = 0 then Nat.digitChar (n % 10) :: ds
        else Nat.toDigitsCore 10 fuel (n / 10) (Nat.digitChar (n % 10) :: ds) := rfl
    rw [hstep]
    by_cases hz : n / 10 = 0
    · simp [hz]
    · rw [if_neg hz]
      exact ih (n / 10) _ (Or.inr (by simp))

/-- The decimal rendering of a natural number starts with a digit. -/
theorem natRepr_head (n : ℕ) :
    ∃ c cs, (Nat.repr n).data = c :: cs ∧ c.isDigit = true := by
  have hne : Nat.toDigits 10 n ≠ [] := toDigitsCore_ne_nil (n + 1) n [] (Or.inl (by omega))
  rcases hl : Nat.toDigits 10 n with _ | ⟨c, cs⟩
  · exact absurd hl hne
  · refine ⟨c, cs, ?_, ?_⟩
    · simp [Nat.repr, hl, List.asString]
    · have : c ∈ Nat.toDigitsCore 10 (n + 1) n [] := by
        rw [show Nat.toDigitsCore 10 (n + 1) n [] = Nat.toDigits 10 n from rfl, hl]
        exact List.mem_cons_self c cs
      rcases toDigitsCore_mem (n + 1) n [] c this with h | h
      · exact h
      · simp at h

/-- The decimal rendering of an integer starts with a digit or a minus
sign; in particular it never starts with a letter. -/
theorem intRepr_head_ne_t (n : ℤ) :
    ∃ c cs, (Int.repr n).data = c :: cs ∧ c ≠ 't' := by
  cases n with
  | ofNat m =>
    rcases natRepr_head m with ⟨c, cs, hdata, hdig⟩
    refine ⟨c, cs, ?_, ?_⟩
    · simpa [Int.repr] using hdata
    · intro he; subst he; simp [Char.isDigit] at hdig
  | negSucc m =>
    refine ⟨'-', (Nat.repr (m + 1)).data, ?_, by decide⟩
    simp [Int.repr, String.data_append]

/-- Core combinatorial fact behind cache/purge disjointness: for any `v`,
the list `temp_ ++ v` is not a prefix of `v ++ _ ++ c ++ t` when `c` is
not the letter `t`.  Strong induction stepping five characters at a
time: a prefix forces `v` to begin with `temp_` again. -/
theorem temp_not_pre_aux (n : ℕ) : ∀ (v t : List Char) (c : Char), v.length ≤ n → c ≠ 't' →
    ¬ ('t' :: 'e' :: 'm' :: 'p' :: '_' :: v <+: v ++ '_' :: c :: t) := by
  induction n with
  | zero =>
    intro v t c hlen _ h
    have hv : v = [] := List.eq_nil_of_length_eq_zero (Nat.le_zero.mp hlen)
    subst hv
    simp only [List.nil_append, List.cons_prefix_cons] at h
    exact absurd h.1 (by decide)
  | succ n ih =>
    intro v t c hlen hc h
    rcases v with _ | ⟨a, _ | ⟨b, _ | ⟨d, _ | ⟨e, _ | ⟨f, w⟩⟩⟩⟩⟩
    · rw [List.nil_append] at h
      rcases List.cons_prefix_cons.mp h with ⟨h1, -⟩
      exact absurd h1 (by decide)
    · simp only [List.cons_append, List.nil_append] at h
      rcases List.cons_prefix_cons.mp h with ⟨-, h'⟩
      rcases List.cons_prefix_cons.mp h' with ⟨h2, -⟩
      exact absurd h2 (by decide)
    · simp only [List.cons_append, List.nil_append] at h
      rcases List.cons_prefix_cons.mp h with ⟨-, h'⟩
      rcases List.cons_prefix_cons.mp h' with ⟨-, h''⟩
      rcases List.cons_prefix_cons.mp h'' with ⟨h3, -⟩
      exact absurd h3 (by decide)
    · simp only [List.cons_append, List.nil_append] at h
      rcases List.cons_prefix_cons.mp h with ⟨-, h'⟩
      rcases List.cons_prefix_cons.mp h' with ⟨-, h''⟩
      rcases List.cons_prefix_cons.mp h'' with ⟨-, h3⟩
      rcases List.cons_prefix_cons.mp h3 with ⟨h4, -⟩
      exact absurd h4 (by decide)
    · simp only [List.cons_append, List.nil_append] at h
      rcases List.cons_prefix_cons.mp h with ⟨h1, h'⟩
      rcases List.cons_prefix_cons.mp h' with ⟨-, h''⟩
      rcases List.cons_prefix_cons.mp h'' with ⟨-, h3⟩
      rcases List.cons_prefix_cons.mp h3 with ⟨-, h4⟩
      rcases List.cons_prefix_cons.mp h4 with ⟨-, h5⟩
      rcases List.cons_prefix_cons.mp h5 with ⟨h6, -⟩
      exact hc ((h1.trans h6).symm)
    · simp only [List.cons_append] at h
      rcases List.cons_prefix_cons.mp h with ⟨h1, h'⟩
      rcases List.cons_prefix_cons.mp h' with ⟨h2, h''⟩
      rcases List.cons_prefix_cons.mp h'' with ⟨h3, h3'⟩
      rcases List.cons_prefix_cons.mp h3' with ⟨h4, h4'⟩
      rcases List.cons_prefix_cons.mp h4' with ⟨h5, h6⟩
      subst h1; subst h2; subst h3; subst h4; subst h5
      have hlw : w.length ≤ n := by
        simp only [List.length_cons] at hlen
        omega
      exact ih w t c hlw hc h6
/-- The artifact path `gifs/<id>_<n>_<caption>.gif` never matches the purge
pattern `gifs/temp_<id>*`, whatever the video id: purging stale temporary
media can never delete a cached artifact. -/
theorem outPath_not_purged (vid : String) (n : ℤ) (cap : String) :
    strHasPre (output_gif_path vid n cap) (purgePat vid) = false := by
  obtain ⟨c, cs, hrepr, hc⟩ := intRepr_head_ne_t n
  unfold strHasPre output_gif_path purgePat
  rw [Bool.eq_false_iff]
  intro h
  rw [List.isPrefixOf_iff_prefix] at h
  rw [show ("gifs/temp_" : String) = "gifs/" ++ "temp_" from rfl] at h
  simp only [String.data_append, hrepr] at h
  simp only [List.cons_append, List.nil_append, List.append_assoc] at h
  rcases List.cons_prefix_cons.mp h with ⟨-, h⟩
  rcases List.cons_prefix_cons.mp h with ⟨-, h⟩
  rcases List.cons_prefix_cons.mp h with ⟨-, h⟩
  rcases List.cons_prefix_cons.mp h with ⟨-, h⟩
  rcases List.cons_prefix_cons.mp h with ⟨-, h⟩
  exact temp_not_pre_aux vid.data.length vid.data _ c le_rfl hc h

/-- The temp video path does match the purge pattern (it is
`gifs/temp_<id>.mp4`). -/
theorem tempPath_purged (vid : String) : strHasPre (tempPath vid) (purgePat vid) = true := by
  unfold strHasPre tempPath purgePat
  rw [List.isPrefixOf_iff_prefix]
  exact ⟨".mp4".data, by simp [String.data_append]⟩

/-- The artifact path is never the temp video path. -/
theorem outPath_ne_tempPath (vid : String) (n : ℤ) (cap : String) :
    output_gif_path vid n cap ≠ tempPath vid := by
  intro h
  have h1 := outPath_not_purged vid n cap
  rw [h, tempPath_purged vid] at h1
  exact Bool.true_eq_false.mp h1

-- ### Helper lemmas: branch characterizations of create_gif_snippet

/-- Cache hit: if the artifact survives the purge, the call returns it with
no external work; the purge is the only filesystem change. -/
theorem create_hit (o : ClipOracles) (fs : FS) (vid : String) (s : ℚ) (cap : String)
    (h1 : (fs.purge (purgePat vid)).exists (output_gif_path vid (pyInt s) cap) = true) :
    create_gif_snippet o fs vid s cap =
      ⟨fs.purge (purgePat vid), some (output_gif_path vid (pyInt s) cap), 0, 0⟩ := by
  simp [create_gif_snippet, h1]

/-- Cache miss, download raises: failure is reported after one download
attempt. -/
theorem create_miss_dl_err (o : ClipOracles) (fs fs2 : FS) (vid : String) (s : ℚ) (cap : String)
    (h1 : (fs.purge (purgePat vid)).exists (output_gif_path vid (pyInt s) cap) = false)
    (h2 : o.dl (fs.purge (purgePat vid)) = .err fs2) :
    create_gif_snippet o fs vid s cap = ⟨fs2, none, 1, 0⟩ := by
  simp [create_gif_snippet, h1, h2]

/-- Cache miss, download returns but produced no temp video: failure. -/
theorem create_miss_no_temp (o : ClipOracles) (fs fs2 : FS) (vid : String) (s : ℚ) (cap : String)
    (h1 : (fs.purge (purgePat vid)).exists (output_gif_path vid (pyInt s) cap) = false)
    (h2 : o.dl (fs.purge (purgePat vid)) = .ok fs2)
    (h3 : fs2.exists (tempPath vid) = false) :
    create_gif_snippet o fs vid s cap = ⟨fs2, none, 1, 0⟩ := by
  simp [create_gif_snippet, h1, h2, h3]

/-- Cache miss, encoder raises: failure is reported and the filesystem is
exactly whatever the failed encoder left behind — the source performs no
cleanup on this path. -/
theorem create_miss_enc_err (o : ClipOracles) (fs fs2 fs3 : FS) (vid : String) (s : ℚ)
    (cap : String)
    (h1 : (fs.purge (purgePat vid)).exists (output_gif_path vid (pyInt s) cap) = false)
    (h2 : o.dl (fs.purge (purgePat vid)) = .ok fs2)
    (h3 : fs2.exists (tempPath vid) = true)
    (h4 : o.enc fs2 (tempPath vid) (filters cap) (output_gif_path vid (pyInt s) cap) = .err fs3) :
    create_gif_snippet o fs vid s cap = ⟨fs3, none, 1, 1⟩ := by
  simp [create_gif_snippet, h1, h2, h3, h4]

/-- Cache miss, encoder succeeds: the temp video is deleted and the
artifact path is returned. -/
theorem create_miss_enc_ok (o : ClipOracles) (fs fs2 fs3 : FS) (vid : String) (s : ℚ)
    (cap : String)
    (h1 : (fs.purge (purgePat vid)).exists (output_gif_path vid (pyInt s) cap) = false)
    (h2 : o.dl (fs.purge (purgePat vid)) = .ok fs2)
    (h3 : fs2.exists (tempPath vid) = true)
    (h4 : o.enc fs2 (tempPath vid) (filters cap) (output_gif_path vid (pyInt s) cap) = .ok fs3) :
    create_gif_snippet o fs vid s cap =
      ⟨fs3.remove (tempPath vid), some (output_gif_path vid (pyInt s) cap), 1, 1⟩ := by
  simp [create_gif_snippet, h1, h2, h3, h4]

/-- A successful call always returns the artifact path for its key. -/
theorem create_ret_path (o : ClipOracles) (fs : FS) (vid : String) (s : ℚ) (cap p : String)
    (h : (create_gif_snippet o fs vid s cap).ret = some p) :
    p = output_gif_path vid (pyInt s) cap := by
  by_cases h1 : (fs.purge (purgePat vid)).exists (output_gif_path vid (pyInt s) cap) = true
  · rw [create_hit o fs vid s cap h1] at h
    exact (Option.some_inj.mp h).symm
  · rw [Bool.not_eq_true] at h1
    rcases hdl : o.dl (fs.purge (purgePat vid)) with fs2 | fs2
    · by_cases h3 : fs2.exists (tempPath vid) = true
      · rcases henc : o.enc fs2 (tempPath vid) (filters cap)
            (output_gif_path vid (pyInt s) cap) with fs3 | fs3
        · rw [create_miss_enc_ok o fs fs2 fs3 vid s cap h1 hdl h3 henc] at h
          exact (Option.some_inj.mp h).symm
        · rw [create_miss_enc_err o fs fs2 fs3 vid s cap h1 hdl h3 henc] at h
          exact absurd h (by simp)
      · rw [Bool.not_eq_true] at h3
        rw [create_miss_no_temp o fs fs2 vid s cap h1 hdl h3] at h
        exact absurd h (by simp)
    · rw [create_miss_dl_err o fs fs2 vid s cap h1 hdl] at h
      exact absurd h (by simp)

/-- Provided the encoding capability produces its output file whenever it
reports success, a successful call leaves the returned artifact present on
the final filesystem. -/
theorem create_success_exists (o : ClipOracles) (fs : FS) (vid : String) (s : ℚ) (cap p : String)
    (hco : ∀ (g : FS) (t f out : String) (g' : FS), o.enc g t f out = .ok g' →
      g'.exists out = true)
    (h : (create_gif_snippet o fs vid s cap).ret = some p) :
    (create_gif_snippet o fs vid s cap).fs.exists p = true := by
  have hp := create_ret_path o fs vid s cap p h
  subst hp
  by_cases h1 : (fs.purge (purgePat vid)).exists (output_gif_path vid (pyInt s) cap) = true
  · rw [create_hit o fs vid s cap h1]
    exact h1
  · rw [Bool.not_eq_true] at h1
    rcases hdl : o.dl (fs.purge (purgePat vid)) with fs2 | fs2
    · by_cases h3 : fs2.exists (tempPath vid) = true
      · rcases henc : o.enc fs2 (tempPath vid) (filters cap)
            (output_gif_path vid (pyInt s) cap) with fs3 | fs3
        · rw [create_miss_enc_ok o fs fs2 fs3 vid s cap h1 hdl h3 henc]
          have hout := hco fs2 (tempPath vid) (filters cap)
            (output_gif_path vid (pyInt s) cap) fs3 henc
          rw [FS.exists_remove_of_ne fs3 _ _ (outPath_ne_tempPath vid (pyInt s) cap)]
          exact hout
        · rw [create_miss_enc_err o fs fs2 fs3 vid s cap h1 hdl h3 henc] at h
          exact absurd h (by simp)
      · rw [Bool.not_eq_true] at h3
        rw [create_miss_no_temp o fs fs2 vid s cap h1 hdl h3] at h
        exact absurd h (by simp)
    · rw [create_miss_dl_err o fs fs2 vid s cap h1 hdl] at h
      exact absurd h (by simp)

/-- Key collision lemma: after any successful call, a second call with the
same video id, the same truncated start second and a caption with the same
sanitized form is a pure cache hit: it performs no download and no
encoding work and returns the very same artifact path. -/
theorem clip_second_call_cached (o o2 : ClipOracles) (fs : FS) (vid : String) (s1 s2 : ℚ)
    (cap1 cap2 p : String)
    (hco : ∀ (g : FS) (t f out : String) (g' : FS), o.enc g t f out = .ok g' →
      g'.exists out = true)
    (hs : pyInt s1 = pyInt s2)
    (hcap : pySafeText cap1 = pySafeText cap2)
    (h : (create_gif_snippet o fs vid s1 cap1).ret = some p) :
    create_gif_snippet o2 (create_gif_snippet o fs vid s1 cap1).fs vid s2 cap2 =
      ⟨(create_gif_snippet o fs vid s1 cap1).fs.purge (purgePat vid), some p, 0, 0⟩ := by
  have hp := create_ret_path o fs vid s1 cap1 p h
  have hsame : output_gif_path vid (pyInt s2) cap2 = p := by
    rw [hp]
    unfold output_gif_path
    rw [hs, hcap]
  have hex := create_success_exists o fs vid s1 cap1 p hco h
  have hsurv : ((create_gif_snippet o fs vid s1 cap1).fs.purge (purgePat vid)).exists
      (output_gif_path vid (pyInt s2) cap2) = true := by
    rw [hsame, hp, FS.exists_purge_of_not_pre _ _ _ (outPath_not_purged vid (pyInt s1) cap1),
      ← hp]
    exact hex
  rw [create_hit o2 _ vid s2 cap2 hsurv, hsame]

-- ### Helper lemmas: descending sort

theorem mem_insertDesc (x y : Nat × ℚ) (l : List (Nat × ℚ)) :
    y ∈ insertDesc x l ↔ y = x ∨ y ∈ l := by
  induction l with
  | nil => simp [insertDesc]
  | cons z zs ih =>
    unfold insertDesc
    by_cases h : z.2 ≤ x.2
    · simp [h]
    · simp only [if_neg h, List.mem_cons, ih]
      tauto

theorem pairwise_insertDesc (x : Nat × ℚ) (l : List (Nat × ℚ))
    (h : l.Pairwise (fun a b => b.2 ≤ a.2)) :
    (insertDesc x l).Pairwise (fun a b => b.2 ≤ a.2) := by
  induction l with
  | nil => simp [insertDesc]
  | cons z zs ih =>
    rcases List.pairwise_cons.mp h with ⟨hz, hzs⟩
    unfold insertDesc
    by_cases hle : z.2 ≤ x.2
    · rw [if_pos hle]
      refine List.pairwise_cons.mpr ⟨?_, h⟩
      intro y hy
      rcases List.mem_cons.mp hy with hy | hy
      · exact hy ▸ hle
      · exact le_trans (hz y hy) hle
    · rw [if_neg hle]
      refine List.pairwise_cons.mpr ⟨?_, ih hzs⟩
      intro y hy
      rcases (mem_insertDesc x y zs).mp hy with hy | hy
      · exact hy ▸ le_of_not_le hle
      · exact hz y hy

theorem sortDesc_sorted (l : List (Nat × ℚ)) :
    (sortDesc l).Pairwise (fun a b => b.2 ≤ a.2) := by
  induction l with
  | nil => exact List.Pairwise.nil
  | cons x xs ih => exact pairwise_insertDesc x (sortDesc xs) ih

-- ### Helper lemmas: truncation, floors and sanitization

/-- On nonnegative rationals Python `int()` (truncation) agrees with the
floor. -/
theorem pyInt_eq_floor (q : ℚ) (h : 0 ≤ q) : pyInt q = ⌊q⌋ := by
  rw [Rat.floor_def]
  exact Int.tdiv_eq_ediv (Rat.num_nonneg.mpr h) (Int.ofNat_nonneg q.den)

theorem alnum_not_space (c : Char) (h : pyIsAlnum c = true) : pyIsSpace c = false := by
  cases hs : pyIsSpace c
  · rfl
  · exfalso
    unfold pyIsSpace at hs
    simp only [Bool.or_eq_true, beq_iff_eq] at hs
    obtain ((((h1 | h1) | h1) | h1) | h1) | h1 := hs <;> (subst h1; revert h; decide)

theorem dropWhile_congr_mem {α : Type} (p q : α → Bool) (l : List α)
    (h : ∀ c ∈ l, p c = q c) : l.dropWhile p = l.dropWhile q := by
  induction l with
  | nil => rfl
  | cons a l ih =>
    rw [List.dropWhile_cons, List.dropWhile_cons, h a (List.mem_cons_self a l)]
    by_cases hq : q a = true
    · rw [if_pos hq, if_pos hq]
      exact ih (fun c hc => h c (List.mem_cons_of_mem a hc))
    · rw [if_neg hq, if_neg hq]

/-- On the output of the alnum-or-space filter, Python's whitespace strip
is exactly a strip of spaces. -/
theorem pyStripData_filtered (l : List Char) :
    pyStripData (l.filter (fun c => pyIsAlnum c || c == ' ')) =
      ((((l.filter (fun c => pyIsAlnum c || c == ' ')).dropWhile
        (· == ' ')).reverse.dropWhile (· == ' ')).reverse) := by
  have hmem : ∀ c ∈ l.filter (fun c => pyIsAlnum c || c == ' '), pyIsSpace c = (c == ' ') := by
    intro c hc
    have hkeep : (pyIsAlnum c || c == ' ') = true := (List.mem_filter.mp hc).2
    cases hsp : (c == ' ')
    · have h1 : pyIsAlnum c = true := by
        rcases (by simpa using hkeep : pyIsAlnum c = true ∨ c = ' ') with h | h
        · exact h
        · subst h; simp at hsp
      rw [alnum_not_space c h1]
    · have hce : c = ' ' := by simpa using hsp
      subst hce
      decide
  have h2 : ∀ c ∈ ((l.filter (fun c => pyIsAlnum c || c == ' ')).dropWhile
      (· == ' ')).reverse, pyIsSpace c = (c == ' ') :=
    fun c hc => hmem c ((List.dropWhile_sublist _).subset (List.mem_reverse.mp hc))
  unfold pyStripData
  rw [dropWhile_congr_mem _ _ _ hmem, dropWhile_congr_mem _ _ _ h2]

/-- The source cache-key sanitization agrees with the claim's description
of it (keep alphanumerics and spaces, strip surrounding whitespace,
truncate to the first 20 characters). -/
theorem pySafeText_eq_sanitizeSpec (cap : String) : pySafeText cap = sanitizeSpec cap := by
  unfold pySafeText sanitizeSpec pyTake pyStrip
  congr 1
  rw [pyStripData_filtered]

-- ### Helper lemmas: acquisition pipeline

theorem vttPath_ne_audioPath (vid : String) : vttPath vid ≠ audioPath vid := by
  intro h
  have h2 := congrArg (fun s => s.data.head?) h
  simp [vttPath, audioPath, String.data_append] at h2

theorem gen_err (o : SubsOracles) (fs fs2 : FS) (vid : String)
    (h : o.audioDl fs = .err fs2) :
    generate_subs_with_whisper o fs vid = ⟨fs2, 0, 1, 1, 0⟩ := by
  simp [generate_subs_with_whisper, h]

theorem gen_no_audio (o : SubsOracles) (fs fs2 : FS) (vid : String)
    (h : o.audioDl fs = .ok fs2) (h2 : fs2.exists (audioPath vid) = false) :
    generate_subs_with_whisper o fs vid = ⟨fs2, 0, 1, 1, 0⟩ := by
  simp [generate_subs_with_whisper, h, h2]

theorem gen_ok (o : SubsOracles) (fs fs2 : FS) (vid : String)
    (h : o.audioDl fs = .ok fs2) (h2 : fs2.exists (audioPath vid) = true) :
    generate_subs_with_whisper o fs vid =
      ⟨(fs2.write (vttPath vid) (vttContent (o.transcribe fs2))).remove (audioPath vid),
        0, 1, 1, 1⟩ := by
  simp [generate_subs_with_whisper, h, h2]

theorem dl_subs_hit (o : SubsOracles) (fs : FS) (vid : String) (h : subsGlob fs vid = true) :
    download_or_generate_subs o fs vid = ⟨fs, 0, 0, 0, 0⟩ := by
  simp [download_or_generate_subs, h]

theorem dl_subs_miss (o : SubsOracles) (fs : FS) (vid : String)
    (h0 : subsGlob fs vid = false) (h1 : subsGlob (o.subDl fs) vid = false) :
    download_or_generate_subs o fs vid =
      ⟨(generate_subs_with_whisper o (o.subDl fs) vid).fs, 1,
        (generate_subs_with_whisper o (o.subDl fs) vid).whisperCalls,
        (generate_subs_with_whisper o (o.subDl fs) vid).audioDlCalls,
        (generate_subs_with_whisper o (o.subDl fs) vid).transcribeCalls⟩ := by
  simp [download_or_generate_subs, h0, h1]


-- ### Claims

/-- C1: if a first `create_gif_snippet` call succeeds and returns an
artifact path, then a second call with the same video id, the same
truncated start second and a caption with the identical sanitized form
performs no download and no encoding work and returns the same artifact
path.  The encoding capability is assumed to materialize its output file
whenever it reports success. -/
theorem claim_c1_clip_cache (o o2 : ClipOracles) (fs : FS) (vid : String) (s1 s2 : ℚ)
    (cap1 cap2 p : String)
    (hco : ∀ (g : FS) (t f out : String) (g' : FS), o.enc g t f out = .ok g' →
      g'.exists out = true)
    (hs : pyInt s1 = pyInt s2)
    (hcap : pySafeText cap1 = pySafeText cap2)
    (h : (create_gif_snippet o fs vid s1 cap1).ret = some p) :
    (create_gif_snippet o2 (create_gif_snippet o fs vid s1 cap1).fs vid s2 cap2).ret = some p ∧
    (create_gif_snippet o2 (create_gif_snippet o fs vid s1 cap1).fs vid s2 cap2).dlCalls = 0 ∧
    (create_gif_snippet o2 (create_gif_snippet o fs vid s1 cap1).fs vid s2 cap2).encCalls = 0 := by
  rw [clip_second_call_cached o o2 fs vid s1 s2 cap1 cap2 p hco hs hcap h]
  exact ⟨rfl, rfl, rfl⟩

/-- C1 witness: a concrete first render of `v1` at second 5 with caption
`hi`, followed by an identical request, which is served from the cache. -/
theorem claim_c1_witness :
    (create_gif_snippet clipOK ⟨[]⟩ "v1" 5 "hi").ret = some "gifs/v1_5_hi.gif" ∧
    ((create_gif_snippet clipOK (create_gif_snippet clipOK ⟨[]⟩ "v1" 5 "hi").fs
        "v1" 5 "hi").ret = some "gifs/v1_5_hi.gif" ∧
      (create_gif_snippet clipOK (create_gif_snippet clipOK ⟨[]⟩ "v1" 5 "hi").fs
        "v1" 5 "hi").dlCalls = 0 ∧
      (create_gif_snippet clipOK (create_gif_snippet clipOK ⟨[]⟩ "v1" 5 "hi").fs
        "v1" 5 "hi").encCalls = 0) :=
  ⟨by decide,
    claim_c1_clip_cache clipOK clipOK ⟨[]⟩ "v1" 5 5 "hi" "hi" "gifs/v1_5_hi.gif"
      (fun g _t _f out g' hgg => by cases hgg; exact FS.exists_write_self g out "gif")
      rfl rfl (by decide)⟩

/-- C2 counterexample: with an encoder that dies after writing a partial
output file (as an interrupted `ffmpeg -y` does), the call reports failure
yet a file exists at the artifact path afterwards — the source removes
nothing on the failure path, contradicting the claim. -/
theorem claim_c2_cex :
    (create_gif_snippet clipEncFail ⟨[]⟩ "v1" 5 "hi").ret = none ∧
    (create_gif_snippet clipEncFail ⟨[]⟩ "v1" 5 "hi").fs.exists "gifs/v1_5_hi.gif" = true := by
  decide

/-- C2 (amended): on an encoding failure the call does report failure
(returns `None`), but the final filesystem is exactly whatever the failed
encoder left behind — the code deletes nothing, so a file exists at the
artifact path afterwards precisely when the failed encoder itself wrote
one. -/
theorem claim_c2_amended (o : ClipOracles) (fs fs2 fs3 : FS) (vid : String) (s : ℚ)
    (cap : String)
    (h1 : (fs.purge (purgePat vid)).exists (output_gif_path vid (pyInt s) cap) = false)
    (h2 : o.dl (fs.purge (purgePat vid)) = .ok fs2)
    (h3 : fs2.exists (tempPath vid) = true)
    (h4 : o.enc fs2 (tempPath vid) (filters cap) (output_gif_path vid (pyInt s) cap) = .err fs3) :
    (create_gif_snippet o fs vid s cap).ret = none ∧
    (create_gif_snippet o fs vid s cap).fs = fs3 ∧
    (create_gif_snippet o fs vid s cap).fs.exists (output_gif_path vid (pyInt s) cap) =
      fs3.exists (output_gif_path vid (pyInt s) cap) := by
  rw [create_miss_enc_err o fs fs2 fs3 vid s cap h1 h2 h3 h4]
  exact ⟨rfl, rfl, rfl⟩

/-- C2 witness: the amended statement at the concrete failing encoder. -/
theorem claim_c2_witness :
    (create_gif_snippet clipEncFail ⟨[]⟩ "v1" 5 "hi").ret = none ∧
    (create_gif_snippet clipEncFail ⟨[]⟩ "v1" 5 "hi").fs =
      ((FS.mk []).write (tempPath "v1") "video").write "gifs/v1_5_hi.gif" "partial" ∧
    (create_gif_snippet clipEncFail ⟨[]⟩ "v1" 5 "hi").fs.exists
        (output_gif_path "v1" (pyInt 5) "hi") =
      (((FS.mk []).write (tempPath "v1") "video").write "gifs/v1_5_hi.gif" "partial").exists
        (output_gif_path "v1" (pyInt 5) "hi") :=
  claim_c2_amended clipEncFail ⟨[]⟩ ((FS.mk []).write (tempPath "v1") "video")
    (((FS.mk []).write (tempPath "v1") "video").write "gifs/v1_5_hi.gif" "partial")
    "v1" 5 "hi" (by decide) (by decide) (by decide) (by decide)

/-- C3: if a transcript file matching `subs/<id>*.vtt` already exists,
acquisition is a no-op: it performs no subtitle download, no audio
download and no transcription, and leaves the filesystem (hence the
existing transcript file's contents) unchanged; running it twice therefore
performs work at most once (here: zero times). -/
theorem claim_c3_idempotent (o o2 : SubsOracles) (fs : FS) (vid : String)
    (h : subsGlob fs vid = true) :
    download_or_generate_subs o fs vid = ⟨fs, 0, 0, 0, 0⟩ ∧
    download_or_generate_subs o2 (download_or_generate_subs o fs vid).fs vid =
      ⟨fs, 0, 0, 0, 0⟩ := by
  have e1 : download_or_generate_subs o fs vid = ⟨fs, 0, 0, 0, 0⟩ := dl_subs_hit o fs vid h
  refine ⟨e1, ?_⟩
  rw [e1]
  exact dl_subs_hit o2 fs vid h

/-- C3 witness: a store already holding `subs/v1.el.vtt`. -/
theorem claim_c3_witness :
    download_or_generate_subs subsW ⟨[("subs/v1.el.vtt", "WEBVTT")]⟩ "v1" =
      ⟨⟨[("subs/v1.el.vtt", "WEBVTT")]⟩, 0, 0, 0, 0⟩ ∧
    download_or_generate_subs subsAudioFail
        (download_or_generate_subs subsW ⟨[("subs/v1.el.vtt", "WEBVTT")]⟩ "v1").fs "v1" =
      ⟨⟨[("subs/v1.el.vtt", "WEBVTT")]⟩, 0, 0, 0, 0⟩ :=
  claim_c3_idempotent subsW subsAudioFail ⟨[("subs/v1.el.vtt", "WEBVTT")]⟩ "v1" (by decide)

/-- C4: with no pre-existing transcript and a platform fetch that yields no
file, the whisper fallback runs (one audio download attempt); if the audio
download succeeds and the audio file exists, a transcript file is written
to the store; if the audio download raises, or returns without an audio
file, the call returns normally with the filesystem exactly as the failed
download left it (in particular it creates no transcript file) and the
transcription model is never invoked. -/
theorem claim_c4_fallback (o : SubsOracles) (fs : FS) (vid : String)
    (h0 : subsGlob fs vid = false)
    (h1 : subsGlob (o.subDl fs) vid = false) :
    (download_or_generate_subs o fs vid).whisperCalls = 1 ∧
    (download_or_generate_subs o fs vid).audioDlCalls = 1 ∧
    (∀ fs2 : FS, o.audioDl (o.subDl fs) = .ok fs2 → fs2.exists (audioPath vid) = true →
      (download_or_generate_subs o fs vid).fs.exists (vttPath vid) = true ∧
      (download_or_generate_subs o fs vid).transcribeCalls = 1) ∧
    (∀ fs2 : FS, o.audioDl (o.subDl fs) = .err fs2 →
      (download_or_generate_subs o fs vid).fs = fs2 ∧
      (download_or_generate_subs o fs vid).transcribeCalls = 0) ∧
    (∀ fs2 : FS, o.audioDl (o.subDl fs) = .ok fs2 → fs2.exists (audioPath vid) = false →
      (download_or_generate_subs o fs vid).fs = fs2 ∧
      (download_or_generate_subs o fs vid).transcribeCalls = 0) := by
  rw [dl_subs_miss o fs vid h0 h1]
  refine ⟨?_, ?_, ?_, ?_, ?_⟩
  · rcases haud : o.audioDl (o.subDl fs) with fs2 | fs2
    · by_cases hex : fs2.exists (audioPath vid) = true
      · rw [gen_ok o (o.subDl fs) fs2 vid haud hex]
      · rw [gen_no_audio o (o.subDl fs) fs2 vid haud (Bool.not_eq_true _ ▸ hex)]
    · rw [gen_err o (o.subDl fs) fs2 vid haud]
  · rcases haud : o.audioDl (o.subDl fs) with fs2 | fs2
    · by_cases hex : fs2.exists (audioPath vid) = true
      · rw [gen_ok o (o.subDl fs) fs2 vid haud hex]
      · rw [gen_no_audio o (o.subDl fs) fs2 vid haud (Bool.not_eq_true _ ▸ hex)]
    · rw [gen_err o (o.subDl fs) fs2 vid haud]
  · intro fs2 haud hex
    rw [gen_ok o (o.subDl fs) fs2 vid haud hex]
    constructor
    · show ((fs2.write (vttPath vid) _).remove (audioPath vid)).exists (vttPath vid) = true
      rw [FS.exists_remove_of_ne _ _ _ (vttPath_ne_audioPath vid)]
      exact FS.exists_write_self fs2 (vttPath vid) _
    · rfl
  · intro fs2 haud
    rw [gen_err o (o.subDl fs) fs2 vid haud]
    exact ⟨rfl, rfl⟩
  · intro fs2 haud hex
    rw [gen_no_audio o (o.subDl fs) fs2 vid haud hex]
    exact ⟨rfl, rfl⟩

/-- C4 witness: concrete capabilities where the platform yields nothing and
the audio download succeeds. -/
theorem claim_c4_witness :
    (download_or_generate_subs subsW ⟨[]⟩ "v1").whisperCalls = 1 ∧
    (download_or_generate_subs subsW ⟨[]⟩ "v1").audioDlCalls = 1 ∧
    (∀ fs2 : FS, subsW.audioDl (subsW.subDl ⟨[]⟩) = .ok fs2 →
      fs2.exists (audioPath "v1") = true →
      (download_or_generate_subs subsW ⟨[]⟩ "v1").fs.exists (vttPath "v1") = true ∧
      (download_or_generate_subs subsW ⟨[]⟩ "v1").transcribeCalls = 1) ∧
    (∀ fs2 : FS, subsW.audioDl (subsW.subDl ⟨[]⟩) = .err fs2 →
      (download_or_generate_subs subsW ⟨[]⟩ "v1").fs = fs2 ∧
      (download_or_generate_subs subsW ⟨[]⟩ "v1").transcribeCalls = 0) ∧
    (∀ fs2 : FS, subsW.audioDl (subsW.subDl ⟨[]⟩) = .ok fs2 →
      fs2.exists (audioPath "v1") = false →
      (download_or_generate_subs subsW ⟨[]⟩ "v1").fs = fs2 ∧
      (download_or_generate_subs subsW ⟨[]⟩ "v1").transcribeCalls = 0) :=
  claim_c4_fallback subsW ⟨[]⟩ "v1" (by decide) (by decide)

/-- C5: over any corpus, the presented search hits are ordered by
non-increasing similarity score, no presented hit has a score below the
0.25 relevance floor, and at most `top_k = 10` hits are presented.  The
ordering and truncation are performed by the external
`util.semantic_search` capability, modelled at its contract. -/
theorem claim_c5_ranking (scores : List ℚ) (_hne : scores ≠ []) :
    (presentedHits scores).Pairwise (fun a b => b.2 ≤ a.2) ∧
    (∀ h ∈ presentedHits scores, ¬ (h.2 < relevanceFloor)) ∧
    (presentedHits scores).length ≤ 10 := by
  refine ⟨?_, ?_, ?_⟩
  · have hs := sortDesc_sorted scores.enum
    have hsub : (presentedHits scores).Sublist (sortDesc scores.enum) :=
      (List.filter_sublist _).trans (List.take_sublist _ _)
    exact List.Pairwise.sublist hsub hs
  · intro h hh
    have hp := (List.mem_filter.mp hh).2
    simpa using hp
  · calc (presentedHits scores).length ≤ (semantic_search scores 10).length :=
        List.length_filter_le _ _
      _ ≤ 10 := List.length_take_le _ _

/-- C5 witness: a concrete two-cue corpus with scores 0 and 1. -/
theorem claim_c5_witness :
    (presentedHits [0, 1]).Pairwise (fun a b => b.2 ≤ a.2) ∧
    (∀ h ∈ presentedHits [0, 1], ¬ (h.2 < relevanceFloor)) ∧
    (presentedHits [0, 1]).length ≤ 10 :=
  claim_c5_ranking [0, 1] (by decide)

/-- C6 counterexample: for the start offset 10.5s (sub-second precision),
the code truncates before subtracting, giving 8, while the claimed formula
`max(0, startOffset − 2s)` gives 8.5 — the derived offset does not equal
the claimed value. -/
theorem claim_c6_cex :
    seek_seconds 0 0 q212 = 8 ∧
    ((seek_seconds 0 0 q212 : ℚ) ≠ seekOffsetSpec (0 * 3600 + 0 * 60 + q212)) := by
  have hsum : (0 : ℚ) * 3600 + 0 * 60 + q212 = q212 := by norm_num
  have hq : q212 = (21 : ℚ) / 2 := by
    unfold q212
    rw [Rat.mk'_eq_divInt, Rat.divInt_eq_div]
    norm_num
  have h8 : seek_seconds 0 0 q212 = 8 := by
    unfold seek_seconds
    rw [hsum]
    decide
  refine ⟨h8, ?_⟩
  rw [h8]
  unfold seekOffsetSpec
  rw [hsum, hq]
  have h17 : (0 : ℚ) ≤ 21 / 2 - 2 := by norm_num
  rw [max_eq_right h17]
  norm_num

/-- C6 (amended): the derived seek offset equals
`max(0, floor(startOffset) − 2)` — the whole-second truncation of the
start offset, not the sub-second value, feeds the subtraction; it is never
negative, and the claim's two concrete examples (65s → 63, 1s → 0) hold. -/
theorem claim_c6_amended (h m s : ℚ) (hh : 0 ≤ h) (hm : 0 ≤ m) (hs : 0 ≤ s) :
    seek_seconds h m s = max 0 (⌊h * 3600 + m * 60 + s⌋ - 2) ∧
    0 ≤ seek_seconds h m s ∧
    seek_seconds 0 1 5 = 63 ∧ seek_seconds 0 0 1 = 0 := by
  refine ⟨?_, ?_, ?_, ?_⟩
  · unfold seek_seconds
    rw [pyInt_eq_floor _ (by positivity)]
  · exact le_max_left 0 _
  · unfold seek_seconds
    rw [show (0 : ℚ) * 3600 + 1 * 60 + 5 = 65 from by norm_num]
    decide
  · unfold seek_seconds
    rw [show (0 : ℚ) * 3600 + 0 * 60 + 1 = 1 from by norm_num]
    decide

/-- C6 witness: the amended statement at the cue start 00:01:05.000. -/
theorem claim_c6_witness :
    seek_seconds 0 1 5 = max 0 (⌊(0 : ℚ) * 3600 + 1 * 60 + 5⌋ - 2) ∧
    0 ≤ seek_seconds 0 1 5 ∧
    seek_seconds 0 1 5 = 63 ∧ seek_seconds 0 0 1 = 0 :=
  claim_c6_amended 0 1 5 (le_refl 0) (by decide) (by decide)

/-- C7 counterexample: the cue text `a\n\nb` survives the length filter and
is indexed as `a  b` (each newline becomes one space), not as the
whitespace-collapsed `a b` the claim describes. -/
theorem claim_c7_cex :
    (load_index_cues "v" [⟨"00:00:00.000", "a\n\nb"⟩]).map (fun c => c.text) = ["a  b"] ∧
    cleanTextSpec "a\n\nb" = "a b" ∧ ("a  b" : String) ≠ "a b" :=
  ⟨by decide, by decide, by decide⟩

/-- C7 (amended): a cue whose cleaned text (trimmed, newlines replaced) has
length below 3 contributes nothing to the corpus; every other cue appears
with its text trimmed and each newline replaced by a single space (runs of
whitespace are not collapsed), and every corpus entry arises this way from
some cue and has length at least 3. -/
theorem claim_c7_amended (vid : String) (caps : List Caption) :
    (∀ c ∈ caps, ¬ (cleanText c.text).length < 3 →
      ∃ cue ∈ load_index_cues vid caps, cue.text = cleanText c.text ∧ cue.start = c.start) ∧
    (∀ cue ∈ load_index_cues vid caps,
      3 ≤ cue.text.length ∧ ∃ c ∈ caps, cue.text = cleanText c.text ∧ cue.start = c.start) := by
  constructor
  · intro c hc hlen
    refine ⟨⟨cleanText c.text, c.start, vid⟩, ?_, rfl, rfl⟩
    exact List.mem_filterMap.mpr ⟨c, hc, by simp only [if_neg hlen]⟩
  · intro cue hcue
    obtain ⟨c, hc, heq⟩ := List.mem_filterMap.mp hcue
    by_cases hl : (cleanText c.text).length < 3
    · simp only [if_pos hl] at heq
      exact Option.noConfusion heq
    · simp only [if_neg hl] at heq
      obtain rfl := Option.some_inj.mp heq
      exact ⟨Nat.not_lt.mp hl, c, hc, rfl, rfl⟩

/-- C7 witness: the amended statement at a one-cue transcript. -/
theorem claim_c7_witness :
    (∀ c ∈ [Caption.mk "00:00:10.000" "hello world"], ¬ (cleanText c.text).length < 3 →
      ∃ cue ∈ load_index_cues "abc123" [Caption.mk "00:00:10.000" "hello world"],
        cue.text = cleanText c.text ∧ cue.start = c.start) ∧
    (∀ cue ∈ load_index_cues "abc123" [Caption.mk "00:00:10.000" "hello world"],
      3 ≤ cue.text.length ∧ ∃ c ∈ [Caption.mk "00:00:10.000" "hello world"],
        cue.text = cleanText c.text ∧ cue.start = c.start) :=
  claim_c7_amended "abc123" [Caption.mk "00:00:10.000" "hello world"]

set_option maxRecDepth 8000 in
/-- C8: the caption text interpolated into the ffmpeg filter specification
is the original caption with every single quote and every colon removed
(the characters the sanitization strips, self-identified by the claim):
it contains neither character, and the filter string is exactly the fixed
filter text around that sanitized caption. -/
theorem claim_c8_filter_sanitize (cap : String) :
    filters cap = filterPre ++ safe_caption cap ++ filterPost ∧
    (∀ c ∈ (safe_caption cap).data, c ≠ '\'' ∧ c ≠ ':') ∧
    (safe_caption cap).data = cap.data.filter (fun c => c != '\'' && c != ':') := by
  have h3 : (safe_caption cap).data = cap.data.filter (fun c => c != '\'' && c != ':') := by
    unfold safe_caption pyRemoveChar
    rw [List.filter_filter]
    exact List.filter_congr (fun a _ => Bool.and_comm _ _)
  refine ⟨?_, ?_, h3⟩
  · apply String.ext
    simp [filters, filterPre, filterPost, String.data_append]
  · intro c hc
    rw [h3] at hc
    have hp := (List.mem_filter.mp hc).2
    simpa using hp

/-- C8 witness: the sanitization at the concrete caption `a':b`. -/
theorem claim_c8_witness :
    filters "a':b" = filterPre ++ safe_caption "a':b" ++ filterPost ∧
    (∀ c ∈ (safe_caption "a':b").data, c ≠ '\'' ∧ c ≠ ':') ∧
    (safe_caption "a':b").data = "a':b".data.filter (fun c => c != '\'' && c != ':') :=
  claim_c8_filter_sanitize "a':b"

/-- C9 counterexample: on a cache hit the filesystem is not left unchanged
and the temp purge is not confined to the cache-miss branch: an existing
`gifs/temp_v1.mp4` is deleted even though the artifact is served from the
cache with no external work. -/
theorem claim_c9_cex :
    (create_gif_snippet clipOK ⟨[("gifs/v1_7_hi.gif", "gif"), ("gifs/temp_v1.mp4", "junk")]⟩
      "v1" 7 "hi").ret = some "gifs/v1_7_hi.gif" ∧
    (create_gif_snippet clipOK ⟨[("gifs/v1_7_hi.gif", "gif"), ("gifs/temp_v1.mp4", "junk")]⟩
      "v1" 7 "hi").dlCalls = 0 ∧
    (create_gif_snippet clipOK ⟨[("gifs/v1_7_hi.gif", "gif"), ("gifs/temp_v1.mp4", "junk")]⟩
      "v1" 7 "hi").encCalls = 0 ∧
    (FS.mk [("gifs/v1_7_hi.gif", "gif"), ("gifs/temp_v1.mp4", "junk")]).exists
      "gifs/temp_v1.mp4" = true ∧
    (create_gif_snippet clipOK ⟨[("gifs/v1_7_hi.gif", "gif"), ("gifs/temp_v1.mp4", "junk")]⟩
      "v1" 7 "hi").fs.exists "gifs/temp_v1.mp4" = false :=
  ⟨by decide, by decide, by decide, by decide, by decide⟩

/-- C9 (amended): when a file already exists at the artifact path the call
returns that path immediately, with no download and no encoding work; but
the purge of stale `gifs/temp_<id>*` files runs unconditionally before the
cache check, so the only filesystem change on a cache hit is exactly that
purge (existing temp files for the video id are removed, not left in
place). -/
theorem claim_c9_amended (o : ClipOracles) (fs : FS) (vid : String) (s : ℚ) (cap : String)
    (h : fs.exists (output_gif_path vid (pyInt s) cap) = true) :
    create_gif_snippet o fs vid s cap =
      ⟨fs.purge (purgePat vid), some (output_gif_path vid (pyInt s) cap), 0, 0⟩ := by
  apply create_hit
  rw [FS.exists_purge_of_not_pre _ _ _ (outPath_not_purged vid (pyInt s) cap)]
  exact h

/-- C9 witness: the amended statement at a concrete cached artifact. -/
theorem claim_c9_witness :
    (FS.mk [("gifs/v1_7_hi.gif", "gif")]).exists (output_gif_path "v1" (pyInt 7) "hi") = true ∧
    create_gif_snippet clipOK ⟨[("gifs/v1_7_hi.gif", "gif")]⟩ "v1" 7 "hi" =
      ⟨(FS.mk [("gifs/v1_7_hi.gif", "gif")]).purge (purgePat "v1"),
        some (output_gif_path "v1" (pyInt 7) "hi"), 0, 0⟩ :=
  ⟨by decide, claim_c9_amended clipOK ⟨[("gifs/v1_7_hi.gif", "gif")]⟩ "v1" 7 "hi" (by decide)⟩

/-- C10: the cache-key sanitization keeps only alphanumerics and spaces,
strips surrounding whitespace and truncates to the first 20 characters
(spaces become underscores only in the path); consequently distinct
captions with equal sanitized forms — such as `hello!` and `hello`, which
differ only in a non-alphanumeric character — map to the same artifact
path, and after a first successful render a second call with the other
caption returns the clip rendered from the first. -/
theorem claim_c10_key_collision :
    (∀ cap : String, pySafeText cap = sanitizeSpec cap) ∧
    (("hello!" : String) ≠ "hello" ∧
      output_gif_path "v1" 5 "hello!" = output_gif_path "v1" 5 "hello") ∧
    (∀ (o o2 : ClipOracles) (fs : FS) (vid : String) (s1 s2 : ℚ) (cap1 cap2 p : String),
      (∀ (g : FS) (t f out : String) (g' : FS), o.enc g t f out = .ok g' →
        g'.exists out = true) →
      pyInt s1 = pyInt s2 → pySafeText cap1 = pySafeText cap2 →
      (create_gif_snippet o fs vid s1 cap1).ret = some p →
      (create_gif_snippet o2 (create_gif_snippet o fs vid s1 cap1).fs vid s2 cap2).ret =
        some p) := by
  refine ⟨pySafeText_eq_sanitizeSpec, ⟨by decide, by decide⟩, ?_⟩
  intro o o2 fs vid s1 s2 cap1 cap2 p hco hs hcap h
  rw [clip_second_call_cached o o2 fs vid s1 s2 cap1 cap2 p hco hs hcap h]

/-- C10 witness: `hello!` and `hello` collide on the key
`gifs/v1_5_hello.gif`; the second call returns the first caption's clip. -/
theorem claim_c10_witness :
    pySafeText "a b!" = sanitizeSpec "a b!" ∧
    (create_gif_snippet clipOK (create_gif_snippet clipOK ⟨[]⟩ "v1" 5 "hello!").fs
      "v1" 5 "hello").ret = some "gifs/v1_5_hello.gif" :=
  ⟨claim_c10_key_collision.1 "a b!",
    claim_c10_key_collision.2.2 clipOK clipOK ⟨[]⟩ "v1" 5 5 "hello!" "hello"
      "gifs/v1_5_hello.gif"
      (fun g _t _f out g' hgg => by cases hgg; exact FS.exists_write_self g out "gif")
      rfl (by decide) (by decide)⟩
